import Mathlib

/-!
# Shallow embedding of the interflop cancellation backend

This file embeds the cancellation backend (the current variant of the C
source: the cancellation detector and noise injector, the arithmetic entry
points, the configuration operations and the RNG state lifecycle) as
executable Lean definitions over bit-level IEEE-754 records.

Hardware IEEE-754 operations and the generator core of the external RNG
library are not part of this repository; they are abstracted as an oracle
(`Host`).  External helpers whose code lives in the external interflop
standard library (`GET_EXP_FLT`, `_init_rng_state_struct`,
`get_rand_double01`, `interflop_strtol`, `logger_error`) are modelled from
the specification, as marked on each definition.
-/

/-- IEEE-754 binary64 bit fields, as in the external float_struct layout:
sign (1 bit), biased exponent (11 bits), mantissa (52 bits). -/
structure Binary64 where
  sign : Nat
  exponent : Nat
  mantissa : Nat
deriving DecidableEq

/-- IEEE-754 binary32 bit fields: sign (1 bit), biased exponent (8 bits),
mantissa (23 bits). -/
structure Binary32 where
  sign : Nat
  exponent : Nat
  mantissa : Nat
deriving DecidableEq

/-- Rational value denoted by a binary64 bit pattern (finite range; a zero
exponent field denotes a subnormal or zero). -/
def Binary64.val (b : Binary64) : ℚ :=
  let s : ℚ := if b.sign = 0 then 1 else -1
  if b.exponent = 0 then s * (b.mantissa : ℚ) / 2 ^ 1074
  else s * ((2 ^ 52 + (b.mantissa : ℚ)) * 2 ^ b.exponent) / 2 ^ 1075

/-- The double constant 0.5 used by the noise synthesizer. -/
def half64 : Binary64 := { sign := 0, exponent := 1022, mantissa := 0 }

/-- The double constant 1.0. -/
def one64 : Binary64 := { sign := 0, exponent := 1023, mantissa := 0 }

/-- The double constant +0.0. -/
def zero64 : Binary64 := { sign := 0, exponent := 0, mantissa := 0 }

/-- cancellation_context_t from interflop_cancellation.h: seed (uint64),
tolerance (int), choose_seed, warning.  cancellation_conf_t is a typedef of
the same structure. -/
structure CancellationContext where
  seed : Nat
  tolerance : Int
  choose_seed : Bool
  warning : Bool
deriving DecidableEq

/-- Modelled from the spec: the external rng_state_t of the RNG library —
the seed policy recorded for the stream (choose_seed, seed), the lazy
validity flag, and an abstract generator state. -/
structure RngState where
  choose_seed : Bool
  seed : Nat
  valid : Bool
  gen : Nat
deriving DecidableEq

/-- Modelled from the spec: the external collaborators of the backend —
the hardware IEEE-754 operations used to compute results (and the external
fmaApprox routine), and the generator core of the Random Stream: next emits
one uniform double in [0,1) and advances the generator, seedInit builds a
generator state from a 64-bit seed. -/
structure Host where
  fadd64 : Binary64 → Binary64 → Binary64
  fsub64 : Binary64 → Binary64 → Binary64
  fmul64 : Binary64 → Binary64 → Binary64
  fdiv64 : Binary64 → Binary64 → Binary64
  ffma64 : Binary64 → Binary64 → Binary64 → Binary64
  fadd32 : Binary32 → Binary32 → Binary32
  fsub32 : Binary32 → Binary32 → Binary32
  fmul32 : Binary32 → Binary32 → Binary32
  fdiv32 : Binary32 → Binary32 → Binary32
  ffma32 : Binary32 → Binary32 → Binary32 → Binary32
  faddFlt64 : Binary32 → Binary64 → Binary32
  next : Nat → Binary64 × Nat
  seedInit : Nat → Nat

/-- Modelled from the spec: _init_rng_state_struct of the external RNG
library — records the seed policy on a stream that is not yet initialized;
safe to call redundantly (a no-op when the stream is already initialized). -/
def init_rng_state_struct (s : RngState) (choose_seed : Bool) (seed : Nat)
    (valid : Bool) : RngState :=
  if s.valid then s
  else { choose_seed := choose_seed, seed := seed, valid := valid, gen := s.gen }

/-- Modelled from the spec: get_rand_double01 of the external RNG library —
on the first draw the stream seeds itself with the recorded seed when
choose_seed holds, and from an entropy sample otherwise; each call then
emits one uniform double in [0,1) and advances the generator. -/
def get_rand_double01 (H : Host) (entropy : Nat) (s : RngState) :
    Binary64 × RngState :=
  let s1 := if s.valid then s
    else { s with gen := H.seedInit (if s.choose_seed then s.seed else entropy),
                  valid := true }
  let r := H.next s1.gen
  (r.1, { s1 with gen := r.2 })

/-- Modelled from the spec: GET_EXP_FLT of the external float utilities at
binary64 — the unbiased binary exponent read directly from the IEEE-754 bit
layout (biased field minus 1023). -/
def GET_EXP_FLT64 (b : Binary64) : Int := (b.exponent : Int) - 1023

/-- Modelled from the spec: GET_EXP_FLT at binary32 (bias 127). -/
def GET_EXP_FLT32 (b : Binary32) : Int := (b.exponent : Int) - 127

/-- The function _noise_binary64: draw u from the stream, center it to u − 0.5 (a
hardware double subtraction), then add exp to the 11-bit IEEE exponent
field of the centered value, wrapping as a C bitfield assignment does. -/
def _noise_binary64 (H : Host) (entropy : Nat) (exp : Int) (rng : RngState) :
    Binary64 × RngState :=
  let dr := get_rand_double01 H entropy rng
  let d_rand := H.fsub64 dr.1 half64
  ({ d_rand with exponent := (((d_rand.exponent : Int) + exp) % 2048).toNat },
    dr.2)

/-- The cancell macro at binary64: compute the cancellation size from the
operand and result exponents; when it reaches the tolerance, record the
seed policy on the stream, draw noise at exponent e_n = e_z − (c − 1) and
add it to the result.  The returned option is the injected noise (none when
no injection happened). -/
def cancell64 (H : Host) (entropy : Nat) (ctx : CancellationContext)
    (x y z : Binary64) (rng : RngState) :
    Binary64 × RngState × Option Binary64 :=
  let e_z := GET_EXP_FLT64 z
  let cancellation := max (GET_EXP_FLT64 x) (GET_EXP_FLT64 y) - e_z
  if ctx.tolerance ≤ cancellation then
    let e_n := e_z - (cancellation - 1)
    let rng1 := init_rng_state_struct rng ctx.choose_seed ctx.seed false
    let p := _noise_binary64 H entropy e_n rng1
    (H.fadd64 z p.1, p.2, some p.1)
  else (z, rng, none)

/-- The cancell macro at binary32: operand and result exponents are read
from the binary32 layout; the noise itself is a binary64 value added into
the float result by a hardware mixed-width addition. -/
def cancell32 (H : Host) (entropy : Nat) (ctx : CancellationContext)
    (x y z : Binary32) (rng : RngState) :
    Binary32 × RngState × Option Binary64 :=
  let e_z := GET_EXP_FLT32 z
  let cancellation := max (GET_EXP_FLT32 x) (GET_EXP_FLT32 y) - e_z
  if ctx.tolerance ≤ cancellation then
    let e_n := e_z - (cancellation - 1)
    let rng1 := init_rng_state_struct rng ctx.choose_seed ctx.seed false
    let p := _noise_binary64 H entropy e_n rng1
    (H.faddFlt64 z p.1, p.2, some p.1)
  else (z, rng, none)

/-- interflop_cancellation_add_double: *res = a + b, then cancell. -/
def interflop_cancellation_add_double (H : Host) (entropy : Nat)
    (ctx : CancellationContext) (a b : Binary64) (rng : RngState) :
    Binary64 × RngState × Option Binary64 :=
  cancell64 H entropy ctx a b (H.fadd64 a b) rng

/-- interflop_cancellation_sub_double: *res = a − b, then cancell. -/
def interflop_cancellation_sub_double (H : Host) (entropy : Nat)
    (ctx : CancellationContext) (a b : Binary64) (rng : RngState) :
    Binary64 × RngState × Option Binary64 :=
  cancell64 H entropy ctx a b (H.fsub64 a b) rng

/-- interflop_cancellation_add_float: *res = a + b, then cancell. -/
def interflop_cancellation_add_float (H : Host) (entropy : Nat)
    (ctx : CancellationContext) (a b : Binary32) (rng : RngState) :
    Binary32 × RngState × Option Binary64 :=
  cancell32 H entropy ctx a b (H.fadd32 a b) rng

/-- interflop_cancellation_sub_float: *res = a − b, then cancell. -/
def interflop_cancellation_sub_float (H : Host) (entropy : Nat)
    (ctx : CancellationContext) (a b : Binary32) (rng : RngState) :
    Binary32 × RngState × Option Binary64 :=
  cancell32 H entropy ctx a b (H.fsub32 a b) rng

/-- interflop_cancellation_mul_double: *res = a * b, context unused. -/
def interflop_cancellation_mul_double (H : Host) (_ctx : CancellationContext)
    (a b : Binary64) : Binary64 :=
  H.fmul64 a b

/-- interflop_cancellation_div_double: *res = a / b, context unused. -/
def interflop_cancellation_div_double (H : Host) (_ctx : CancellationContext)
    (a b : Binary64) : Binary64 :=
  H.fdiv64 a b

/-- interflop_cancellation_mul_float: *res = a * b, context unused. -/
def interflop_cancellation_mul_float (H : Host) (_ctx : CancellationContext)
    (a b : Binary32) : Binary32 :=
  H.fmul32 a b

/-- interflop_cancellation_div_float: *res = a / b, context unused. -/
def interflop_cancellation_div_float (H : Host) (_ctx : CancellationContext)
    (a b : Binary32) : Binary32 :=
  H.fdiv32 a b

/-- interflop_cancellation_fma_double: *res = fmaApprox(a, b, c), context
unused. -/
def interflop_cancellation_fma_double (H : Host) (_ctx : CancellationContext)
    (a b c : Binary64) : Binary64 :=
  H.ffma64 a b c

/-- interflop_cancellation_fma_float: *res = fmaApprox(a, b, c), context
unused. -/
def interflop_cancellation_fma_float (H : Host) (_ctx : CancellationContext)
    (a b c : Binary32) : Binary32 :=
  H.ffma32 a b c

/-- The setter _set_cancellation_tolerance: unvalidated field write. -/
def _set_cancellation_tolerance (tolerance : Int) (ctx : CancellationContext) :
    CancellationContext :=
  { ctx with tolerance := tolerance }

/-- The setter _set_cancellation_warning: field write. -/
def _set_cancellation_warning (warning : Bool) (ctx : CancellationContext) :
    CancellationContext :=
  { ctx with warning := warning }

/-- The setter _set_cancellation_seed: writes the seed and forces
choose_seed to true. -/
def _set_cancellation_seed (seed : Nat) (ctx : CancellationContext) :
    CancellationContext :=
  { ctx with seed := seed, choose_seed := true }

/-- C conversion of a long value to int: wrap to 32-bit two's complement
(the tolerance branch of parse_opt stores the strtol result in an int). -/
def wrapInt32 (v : Int) : Int := (v + 2 ^ 31) % 2 ^ 32 - 2 ^ 31

/-- C conversion of a long value to uint64_t (the seed branch of parse_opt
stores the strtol result in a uint64_t). -/
def wrapUInt64 (v : Int) : Nat := (v % 2 ^ 64).toNat

/-- Option keys understood by parse_opt: t (tolerance), w (warning),
s (seed), and any other key. -/
inductive ParseKey
  | t
  | w
  | s
  | other
deriving DecidableEq

/-- Outcome of one parse_opt call: the resulting context, whether
logger_error reported an error (modelled from the spec as a non-fatal
report), and whether the key was unknown (ARGP_ERR_UNKNOWN). -/
structure ParseOut where
  ctx : CancellationContext
  errorReported : Bool
  unknownKey : Bool
deriving DecidableEq

/-- parse_opt (current variant): the outcome of the external
interflop_strtol on the argument string is passed in as the pair
(strtolErr, strtolVal).  The tolerance branch rejects an error or a
negative value and leaves the context untouched; the seed branch reports an
error but still stores the parsed seed and forces choose_seed. -/
def parse_opt (key : ParseKey) (strtolErr : Int) (strtolVal : Int)
    (ctx : CancellationContext) : ParseOut :=
  match key with
  | .t =>
    let val := wrapInt32 strtolVal
    if strtolErr ≠ 0 ∨ val < 0 then
      { ctx := ctx, errorReported := true, unknownKey := false }
    else
      { ctx := _set_cancellation_tolerance val ctx, errorReported := false,
        unknownKey := false }
  | .w =>
    { ctx := _set_cancellation_warning true ctx, errorReported := false,
      unknownKey := false }
  | .s =>
    let seed := wrapUInt64 strtolVal
    { ctx := _set_cancellation_seed seed ctx,
      errorReported := if strtolErr ≠ 0 then true else false,
      unknownKey := false }
  | .other => { ctx := ctx, errorReported := false, unknownKey := true }

/-- interflop_cancellation_configure: bulk configuration — writes
tolerance and warning from the struct, then seed through
_set_cancellation_seed (which forces choose_seed to true). -/
def interflop_cancellation_configure (conf : CancellationContext)
    (ctx : CancellationContext) : CancellationContext :=
  _set_cancellation_seed conf.seed
    (_set_cancellation_warning conf.warning
      (_set_cancellation_tolerance conf.tolerance ctx))

/-- init_context: the defaults installed by pre_init — no chosen seed,
seed 0, warning off, tolerance 1. -/
def init_context : CancellationContext :=
  { seed := 0, tolerance := 1, choose_seed := false, warning := false }

/-- Zero-initialized thread-local rng_state (C static storage). -/
def rngStateZero : RngState :=
  { choose_seed := false, seed := 0, valid := false, gen := 0 }

/-- The RNG bookkeeping performed by interflop_cancellation_init: record
the context's seed policy on the thread's stream, leaving actual seeding to
the first draw. -/
def interflop_cancellation_init_rng (ctx : CancellationContext) : RngState :=
  init_rng_state_struct rngStateZero ctx.choose_seed ctx.seed false

/-- The per-thread RNG state pair: the live stream (rng_state) and the
single saved slot (__rng_state) used by push/pop. -/
structure ManagerState where
  rng : RngState
  saved : RngState
deriving DecidableEq

/-- cancellation_push_seed: snapshot the live stream into the saved slot,
then mark the live stream for deterministic re-seeding with seed. -/
def cancellation_push_seed (seed : Nat) (m : ManagerState) : ManagerState :=
  { saved := m.rng, rng := init_rng_state_struct m.rng true seed false }

/-- cancellation_pop_seed: restore the live stream from the saved slot. -/
def cancellation_pop_seed (m : ManagerState) : ManagerState :=
  { m with rng := m.saved }

/-- One draw from the live stream of the manager pair; the saved slot is
not an input of the draw. -/
def managerDraw (H : Host) (entropy : Nat) (m : ManagerState) :
    Binary64 × ManagerState :=
  let r := get_rand_double01 H entropy m.rng
  (r.1, { m with rng := r.2 })

/-- n successive draws from the live stream (entropy samples indexed by
es). -/
def managerDraws (H : Host) (es : Nat → Nat) : Nat → ManagerState → ManagerState
  | 0, m => m
  | n + 1, m => managerDraws H es n (managerDraw H (es n) m).2

/-- Lift an operation that touches only the live stream to the manager
pair, mirroring that the C entry points read and write rng_state but never
__rng_state. -/
def onRng {α β : Type} (f : RngState → α × RngState × β) (m : ManagerState) :
    α × ManagerState × β :=
  let r := f m.rng
  (r.1, { m with rng := r.2.1 }, r.2.2)

/-- One instrumented arithmetic operation of a single-threaded run. -/
inductive FpOp
  | add64 (a b : Binary64)
  | sub64 (a b : Binary64)
  | mul64 (a b : Binary64)
  | div64 (a b : Binary64)
  | fma64 (a b c : Binary64)
  | add32 (a b : Binary32)
  | sub32 (a b : Binary32)
  | mul32 (a b : Binary32)
  | div32 (a b : Binary32)
  | fma32 (a b c : Binary32)

/-- A stored result of either width. -/
inductive FpVal
  | f64 (b : Binary64)
  | f32 (b : Binary32)
deriving DecidableEq

/-- Dispatch of one operation through the backend entry points, threading
the thread's live stream. -/
def stepOp (H : Host) (entropy : Nat) (ctx : CancellationContext) :
    FpOp → RngState → FpVal × RngState
  | .add64 a b, rng =>
    let r := interflop_cancellation_add_double H entropy ctx a b rng
    (.f64 r.1, r.2.1)
  | .sub64 a b, rng =>
    let r := interflop_cancellation_sub_double H entropy ctx a b rng
    (.f64 r.1, r.2.1)
  | .mul64 a b, rng => (.f64 (interflop_cancellation_mul_double H ctx a b), rng)
  | .div64 a b, rng => (.f64 (interflop_cancellation_div_double H ctx a b), rng)
  | .fma64 a b c, rng =>
    (.f64 (interflop_cancellation_fma_double H ctx a b c), rng)
  | .add32 a b, rng =>
    let r := interflop_cancellation_add_float H entropy ctx a b rng
    (.f32 r.1, r.2.1)
  | .sub32 a b, rng =>
    let r := interflop_cancellation_sub_float H entropy ctx a b rng
    (.f32 r.1, r.2.1)
  | .mul32 a b, rng => (.f32 (interflop_cancellation_mul_float H ctx a b), rng)
  | .div32 a b, rng => (.f32 (interflop_cancellation_div_float H ctx a b), rng)
  | .fma32 a b c, rng =>
    (.f32 (interflop_cancellation_fma_float H ctx a b c), rng)

/-- A complete single-threaded run: the list of stored results and the
final stream state. -/
def runOps (H : Host) (entropy : Nat) (ctx : CancellationContext) :
    List FpOp → RngState → List FpVal × RngState
  | [], rng => ([], rng)
  | op :: ops, rng =>
    let r := stepOp H entropy ctx op rng
    let rest := runOps H entropy ctx ops r.2
    (r.1 :: rest.1, rest.2)

/-- Presence of each entry of the function-pointer table built by
interflop_cancellation_init (true = non-NULL). -/
structure BackendTable where
  has_add_float : Bool
  has_sub_float : Bool
  has_mul_float : Bool
  has_div_float : Bool
  has_cmp_float : Bool
  has_add_double : Bool
  has_sub_double : Bool
  has_mul_double : Bool
  has_div_double : Bool
  has_cmp_double : Bool
  has_cast_double_to_float : Bool
  has_fma_float : Bool
  has_fma_double : Bool
deriving DecidableEq

/-- The table returned by interflop_cancellation_init: comparison and
double-to-float cast entries are left NULL. -/
def interflop_backend_cancellation : BackendTable :=
  { has_add_float := true, has_sub_float := true, has_mul_float := true,
    has_div_float := true, has_cmp_float := false, has_add_double := true,
    has_sub_double := true, has_mul_double := true, has_div_double := true,
    has_cmp_double := false, has_cast_double_to_float := false,
    has_fma_float := true, has_fma_double := true }

/-- The float constant 1.0f. -/
def one32 : Binary32 := { sign := 0, exponent := 127, mantissa := 0 }

/-- The double constant 0.75 (bit pattern). -/
def b075 : Binary64 := { sign := 0, exponent := 1022, mantissa := 2 ^ 51 }

/-- The double constant 0.25 (bit pattern). -/
def b025 : Binary64 := { sign := 0, exponent := 1021, mantissa := 0 }

/-- A concrete host instance used to evaluate the embedding on concrete
inputs: every arithmetic operation returns its first operand, except that
subtraction maps (0.75, 0.5) to the exact IEEE difference 0.25, the
generator always emits 0.75, and seeding is the identity. -/
def HW : Host :=
  { fadd64 := fun a _ => a
    fsub64 := fun a c => if a = b075 ∧ c = half64 then b025 else a
    fmul64 := fun a _ => a
    fdiv64 := fun a _ => a
    ffma64 := fun a _ _ => a
    fadd32 := fun a _ => a
    fsub32 := fun a _ => a
    fmul32 := fun a _ => a
    fdiv32 := fun a _ => a
    ffma32 := fun a _ _ => a
    faddFlt64 := fun a _ => a
    next := fun g => (b075, g + 1)
    seedInit := fun s => s }

/-- A concrete host instance realizing an exact cancellation: subtraction
of equal operands yields +0.0 (and maps the drawn 0.75 through centering to
0.25, the exact IEEE value of 0.75 − 0.5); the generator always emits
0.75. -/
def HCex : Host :=
  { fadd64 := fun a _ => a
    fsub64 := fun a _ => if a = b075 then b025 else zero64
    fmul64 := fun a _ => a
    fdiv64 := fun a _ => a
    ffma64 := fun a _ _ => a
    fadd32 := fun a _ => a
    fsub32 := fun a _ => a
    fmul32 := fun a _ => a
    fdiv32 := fun a _ => a
    ffma32 := fun a _ _ => a
    faddFlt64 := fun a _ => a
    next := fun g => (b075, g + 1)
    seedInit := fun s => s }

theorem cancell64_isSome (H : Host) (e : Nat) (ctx : CancellationContext)
    (x y z : Binary64) (rng : RngState) :
    (cancell64 H e ctx x y z rng).2.2.isSome = true ↔
      ctx.tolerance ≤ max (GET_EXP_FLT64 x) (GET_EXP_FLT64 y) - GET_EXP_FLT64 z := by
  by_cases h : ctx.tolerance ≤ max (GET_EXP_FLT64 x) (GET_EXP_FLT64 y) - GET_EXP_FLT64 z
  · simp [cancell64, if_pos h, h]
  · simp [cancell64, if_neg h, h]

theorem cancell32_isSome (H : Host) (e : Nat) (ctx : CancellationContext)
    (x y z : Binary32) (rng : RngState) :
    (cancell32 H e ctx x y z rng).2.2.isSome = true ↔
      ctx.tolerance ≤ max (GET_EXP_FLT32 x) (GET_EXP_FLT32 y) - GET_EXP_FLT32 z := by
  by_cases h : ctx.tolerance ≤ max (GET_EXP_FLT32 x) (GET_EXP_FLT32 y) - GET_EXP_FLT32 z
  · simp [cancell32, if_pos h, h]
  · simp [cancell32, if_neg h, h]

theorem cancell64_skip (H : Host) (e : Nat) (ctx : CancellationContext)
    (x y z : Binary64) (rng : RngState)
    (h : max (GET_EXP_FLT64 x) (GET_EXP_FLT64 y) - GET_EXP_FLT64 z < ctx.tolerance) :
    cancell64 H e ctx x y z rng = (z, rng, none) := by
  simp [cancell64, if_neg (not_le.mpr h)]

theorem cancell32_skip (H : Host) (e : Nat) (ctx : CancellationContext)
    (x y z : Binary32) (rng : RngState)
    (h : max (GET_EXP_FLT32 x) (GET_EXP_FLT32 y) - GET_EXP_FLT32 z < ctx.tolerance) :
    cancell32 H e ctx x y z rng = (z, rng, none) := by
  simp [cancell32, if_neg (not_le.mpr h)]

/-- C1: add and sub of either width inject noise exactly when
max(exp(a), exp(b)) − exp(result) reaches the tolerance; in particular with
tolerance 0, any call whose result exponent does not exceed the larger
operand exponent is perturbed. -/
theorem C1_add_sub_perturb_iff (H : Host) (e : Nat) (ctx : CancellationContext)
    (a b : Binary64) (x y : Binary32) (rng : RngState) :
    ((interflop_cancellation_add_double H e ctx a b rng).2.2.isSome = true ↔
      ctx.tolerance ≤
        max (GET_EXP_FLT64 a) (GET_EXP_FLT64 b) - GET_EXP_FLT64 (H.fadd64 a b)) ∧
    ((interflop_cancellation_sub_double H e ctx a b rng).2.2.isSome = true ↔
      ctx.tolerance ≤
        max (GET_EXP_FLT64 a) (GET_EXP_FLT64 b) - GET_EXP_FLT64 (H.fsub64 a b)) ∧
    ((interflop_cancellation_add_float H e ctx x y rng).2.2.isSome = true ↔
      ctx.tolerance ≤
        max (GET_EXP_FLT32 x) (GET_EXP_FLT32 y) - GET_EXP_FLT32 (H.fadd32 x y)) ∧
    ((interflop_cancellation_sub_float H e ctx x y rng).2.2.isSome = true ↔
      ctx.tolerance ≤
        max (GET_EXP_FLT32 x) (GET_EXP_FLT32 y) - GET_EXP_FLT32 (H.fsub32 x y)) ∧
    (ctx.tolerance = 0 →
      GET_EXP_FLT64 (H.fadd64 a b) ≤ max (GET_EXP_FLT64 a) (GET_EXP_FLT64 b) →
      (interflop_cancellation_add_double H e ctx a b rng).2.2.isSome = true) := by
  refine ⟨cancell64_isSome H e ctx a b _ rng, cancell64_isSome H e ctx a b _ rng,
    cancell32_isSome H e ctx x y _ rng, cancell32_isSome H e ctx x y _ rng, ?_⟩
  intro h0 hle
  exact (cancell64_isSome H e ctx a b _ rng).mpr (by rw [h0]; omega)

/-- C1 witness: with tolerance 0 and an addition whose result keeps the
operands' exponent, noise is injected. -/
theorem C1_add_sub_perturb_iff_witness :
    (interflop_cancellation_add_double HW 0
      { seed := 0, tolerance := 0, choose_seed := false, warning := false }
      one64 one64 rngStateZero).2.2.isSome = true :=
  (C1_add_sub_perturb_iff HW 0
    { seed := 0, tolerance := 0, choose_seed := false, warning := false }
    one64 one64 one32 one32 rngStateZero).2.2.2.2 rfl (by decide)

/-- C4: multiplication and division of either width store exactly the
hardware IEEE product and quotient and leave the stream untouched; no
perturbation is ever injected. -/
theorem C4_mul_div_passthrough (H : Host) (e : Nat) (ctx : CancellationContext)
    (a b : Binary64) (x y : Binary32) (rng : RngState) :
    interflop_cancellation_mul_double H ctx a b = H.fmul64 a b ∧
    interflop_cancellation_div_double H ctx a b = H.fdiv64 a b ∧
    interflop_cancellation_mul_float H ctx x y = H.fmul32 x y ∧
    interflop_cancellation_div_float H ctx x y = H.fdiv32 x y ∧
    stepOp H e ctx (FpOp.mul64 a b) rng = (FpVal.f64 (H.fmul64 a b), rng) ∧
    stepOp H e ctx (FpOp.div64 a b) rng = (FpVal.f64 (H.fdiv64 a b), rng) ∧
    stepOp H e ctx (FpOp.mul32 x y) rng = (FpVal.f32 (H.fmul32 x y), rng) ∧
    stepOp H e ctx (FpOp.div32 x y) rng = (FpVal.f32 (H.fdiv32 x y), rng) :=
  ⟨rfl, rfl, rfl, rfl, rfl, rfl, rfl, rfl⟩

/-- C9: multiplication, division and fma never read the context — any two
contexts yield the same stored bits — and never touch the RNG stream; the
double-to-float cast entry of the dispatch table is NULL. -/
theorem C9_ctx_independent (H : Host) (e : Nat) (c1 c2 : CancellationContext)
    (a b c : Binary64) (x y z : Binary32) (rng : RngState) :
    interflop_cancellation_mul_double H c1 a b
      = interflop_cancellation_mul_double H c2 a b ∧
    interflop_cancellation_div_double H c1 a b
      = interflop_cancellation_div_double H c2 a b ∧
    interflop_cancellation_fma_double H c1 a b c
      = interflop_cancellation_fma_double H c2 a b c ∧
    interflop_cancellation_mul_float H c1 x y
      = interflop_cancellation_mul_float H c2 x y ∧
    interflop_cancellation_div_float H c1 x y
      = interflop_cancellation_div_float H c2 x y ∧
    interflop_cancellation_fma_float H c1 x y z
      = interflop_cancellation_fma_float H c2 x y z ∧
    (stepOp H e c1 (FpOp.mul64 a b) rng).2 = rng ∧
    (stepOp H e c1 (FpOp.div64 a b) rng).2 = rng ∧
    (stepOp H e c1 (FpOp.fma64 a b c) rng).2 = rng ∧
    (stepOp H e c1 (FpOp.mul32 x y) rng).2 = rng ∧
    (stepOp H e c1 (FpOp.div32 x y) rng).2 = rng ∧
    (stepOp H e c1 (FpOp.fma32 x y z) rng).2 = rng ∧
    interflop_backend_cancellation.has_cast_double_to_float = false :=
  ⟨rfl, rfl, rfl, rfl, rfl, rfl, rfl, rfl, rfl, rfl, rfl, rfl, rfl⟩

/-- C10: the bulk configure operation forces choose_seed to true for every
input configuration, installing deterministic seeding with the supplied
seed. -/
theorem C10_configure_forces_choose_seed (conf ctx : CancellationContext) :
    (interflop_cancellation_configure conf ctx).choose_seed = true ∧
    (interflop_cancellation_configure conf ctx).seed = conf.seed ∧
    (interflop_cancellation_configure conf ctx).tolerance = conf.tolerance ∧
    (interflop_cancellation_configure conf ctx).warning = conf.warning :=
  ⟨rfl, rfl, rfl, rfl⟩

theorem managerDraws_saved (H : Host) (es : Nat → Nat) :
    ∀ (n : Nat) (m : ManagerState), (managerDraws H es n m).saved = m.saved := by
  intro n
  induction n with
  | zero => intro m; rfl
  | succ k ih => intro m; simpa [managerDraws, managerDraw] using ih _

/-- C6: push_seed followed by any number of draws and pop_seed restores
the live stream exactly, so the next drawn value equals the value the
stream would have produced had push/pop never been called. -/
theorem C6_push_pop_roundtrip (H : Host) (es : Nat → Nat) (e seed n : Nat)
    (m : ManagerState) :
    (cancellation_pop_seed
      (managerDraws H es n (cancellation_push_seed seed m))).rng = m.rng ∧
    (managerDraw H e (cancellation_pop_seed
      (managerDraws H es n (cancellation_push_seed seed m)))).1
      = (managerDraw H e m).1 := by
  have hs : (managerDraws H es n (cancellation_push_seed seed m)).saved = m.rng := by
    rw [managerDraws_saved]; rfl
  refine ⟨by simp [cancellation_pop_seed, hs], ?_⟩
  simp [managerDraw, cancellation_pop_seed, hs]

/-- C8: when the detected cancellation stays below the tolerance, add and
sub of either width store exactly the hardware IEEE sum or difference,
inject nothing, and leave the live stream — and, lifted to the per-thread
state pair, the saved slot — unchanged. -/
theorem C8_below_tolerance_frame (H : Host) (e : Nat) (ctx : CancellationContext)
    (a b : Binary64) (x y : Binary32) (rng : RngState) (m : ManagerState) :
    (max (GET_EXP_FLT64 a) (GET_EXP_FLT64 b) - GET_EXP_FLT64 (H.fadd64 a b)
        < ctx.tolerance →
      interflop_cancellation_add_double H e ctx a b rng
        = (H.fadd64 a b, rng, none)) ∧
    (max (GET_EXP_FLT64 a) (GET_EXP_FLT64 b) - GET_EXP_FLT64 (H.fsub64 a b)
        < ctx.tolerance →
      interflop_cancellation_sub_double H e ctx a b rng
        = (H.fsub64 a b, rng, none)) ∧
    (max (GET_EXP_FLT32 x) (GET_EXP_FLT32 y) - GET_EXP_FLT32 (H.fadd32 x y)
        < ctx.tolerance →
      interflop_cancellation_add_float H e ctx x y rng
        = (H.fadd32 x y, rng, none)) ∧
    (max (GET_EXP_FLT32 x) (GET_EXP_FLT32 y) - GET_EXP_FLT32 (H.fsub32 x y)
        < ctx.tolerance →
      interflop_cancellation_sub_float H e ctx x y rng
        = (H.fsub32 x y, rng, none)) ∧
    (onRng (interflop_cancellation_add_double H e ctx a b) m).2.1.saved
      = m.saved ∧
    (onRng (interflop_cancellation_sub_double H e ctx a b) m).2.1.saved
      = m.saved := by
  exact ⟨fun h => cancell64_skip H e ctx a b _ rng h,
    fun h => cancell64_skip H e ctx a b _ rng h,
    fun h => cancell32_skip H e ctx x y _ rng h,
    fun h => cancell32_skip H e ctx x y _ rng h, rfl, rfl⟩

/-- C8 witness: with the default tolerance 1 and an addition showing no
cancellation, the result is the plain IEEE sum and the stream is
untouched. -/
theorem C8_below_tolerance_frame_witness :
    interflop_cancellation_add_double HW 0 init_context one64 one64 rngStateZero
      = (one64, rngStateZero, none) ∧
    interflop_cancellation_sub_double HW 0 init_context one64 one64 rngStateZero
      = (one64, rngStateZero, none) ∧
    interflop_cancellation_add_float HW 0 init_context one32 one32 rngStateZero
      = (one32, rngStateZero, none) ∧
    interflop_cancellation_sub_float HW 0 init_context one32 one32 rngStateZero
      = (one32, rngStateZero, none) := by
  obtain ⟨h1, h2, h3, h4, _, _⟩ := C8_below_tolerance_frame HW 0 init_context
    one64 one64 one32 one32 rngStateZero ⟨rngStateZero, rngStateZero⟩
  exact ⟨h1 (by decide), h2 (by decide), h3 (by decide), h4 (by decide)⟩

/-- C3 counterexample: a malformed --seed string (strtol error 1, parsed
value 7) against the freshly initialized context: the error is reported,
yet the seed field is overwritten with 7 (it was 0) and choose_seed is
flipped to true (it was false) — the fields do not retain their previous
values. -/
theorem C3_cex :
    (parse_opt ParseKey.s 1 7 init_context).errorReported = true ∧
    init_context.seed = 0 ∧
    (parse_opt ParseKey.s 1 7 init_context).ctx.seed = 7 ∧
    init_context.choose_seed = false ∧
    (parse_opt ParseKey.s 1 7 init_context).ctx.choose_seed = true := by
  decide

/-- C3 (amended): an invalid --tolerance (strtol error or negative value)
is reported and the whole context retains its previous value; an invalid
--seed string is reported as an error, but the seed field is nevertheless
overwritten with the parsed value and choose_seed is forced to true. -/
theorem C3_parse_invalid (ctx : CancellationContext) (err v : Int) :
    (err ≠ 0 ∨ wrapInt32 v < 0 →
      parse_opt ParseKey.t err v ctx
        = { ctx := ctx, errorReported := true, unknownKey := false }) ∧
    (err ≠ 0 → (parse_opt ParseKey.s err v ctx).errorReported = true) ∧
    (parse_opt ParseKey.s err v ctx).ctx
      = _set_cancellation_seed (wrapUInt64 v) ctx := by
  refine ⟨fun h => by simp [parse_opt, if_pos h], fun h => by simp [parse_opt, h], ?_⟩
  simp [parse_opt]

/-- C3 witness: the amended behaviour at a concrete failed parse. -/
theorem C3_parse_invalid_witness :
    parse_opt ParseKey.t 1 7 init_context
      = { ctx := init_context, errorReported := true, unknownKey := false } ∧
    (parse_opt ParseKey.s 1 7 init_context).errorReported = true ∧
    (parse_opt ParseKey.s 1 7 init_context).ctx
      = _set_cancellation_seed (wrapUInt64 7) init_context := by
  obtain ⟨h1, h2, h3⟩ := C3_parse_invalid init_context 1 7
  exact ⟨h1 (Or.inl (by decide)), h2 (by decide), h3⟩

/-- C5 counterexample: the bulk configure operation applies a negative
tolerance unvalidated — after configuring with tolerance −1 the context
violates the invariant. -/
theorem C5_cex :
    init_context.tolerance = 1 ∧
    (interflop_cancellation_configure
      { seed := 0, tolerance := -1, choose_seed := false, warning := false }
      init_context).tolerance = -1 ∧
    ¬ (0 ≤ (interflop_cancellation_configure
      { seed := 0, tolerance := -1, choose_seed := false, warning := false }
      init_context).tolerance) := by
  decide

/-- C5 (amended): tolerance ≥ 0 holds after initialization and is
preserved by every CLI parse step (a negative --tolerance is rejected and
not applied); the bulk configure operation and the raw setter apply the
given tolerance without validation, so they do not preserve the
invariant. -/
theorem C5_tolerance_invariant (ctx conf : CancellationContext) (k : ParseKey)
    (err v : Int) (h : 0 ≤ ctx.tolerance) :
    0 ≤ init_context.tolerance ∧
    0 ≤ (parse_opt k err v ctx).ctx.tolerance ∧
    (interflop_cancellation_configure conf ctx).tolerance = conf.tolerance ∧
    (_set_cancellation_tolerance conf.tolerance ctx).tolerance
      = conf.tolerance := by
  refine ⟨by decide, ?_, rfl, rfl⟩
  cases k with
  | t =>
    by_cases hc : err ≠ 0 ∨ wrapInt32 v < 0
    · simpa [parse_opt, if_pos hc] using h
    · push_neg at hc
      simp [parse_opt, hc.1, not_lt.mpr hc.2, _set_cancellation_tolerance, hc.2]
  | w => simpa [parse_opt, _set_cancellation_warning] using h
  | s => simpa [parse_opt, _set_cancellation_seed] using h
  | other => simpa [parse_opt] using h

/-- C5 witness: the amended invariant at a concrete context and parse. -/
theorem C5_tolerance_invariant_witness :
    0 ≤ init_context.tolerance ∧
    0 ≤ (parse_opt ParseKey.t 0 7 init_context).ctx.tolerance ∧
    (interflop_cancellation_configure
      { seed := 5, tolerance := 3, choose_seed := false, warning := true }
      init_context).tolerance = 3 ∧
    (_set_cancellation_tolerance 3 init_context).tolerance = 3 := by
  have h := C5_tolerance_invariant init_context
    { seed := 5, tolerance := 3, choose_seed := false, warning := true }
    ParseKey.t 0 7 (by decide)
  exact h

theorem get_rand_entropy_indep (H : Host) (e1 e2 : Nat) (s : RngState)
    (h : s.choose_seed = true) :
    get_rand_double01 H e1 s = get_rand_double01 H e2 s := by
  simp [get_rand_double01, h]

theorem get_rand_choose_seed (H : Host) (e : Nat) (s : RngState) :
    ((get_rand_double01 H e s).2).choose_seed = s.choose_seed := by
  by_cases hv : s.valid <;> simp [get_rand_double01, hv]

theorem init_rng_choose_seed (s : RngState) (c : Bool) (sd : Nat) (v : Bool)
    (hs : s.choose_seed = true) (hc : c = true) :
    (init_rng_state_struct s c sd v).choose_seed = true := by
  by_cases hv : s.valid <;> simp [init_rng_state_struct, hv, hs, hc]

theorem cancell64_entropy_indep (H : Host) (e1 e2 : Nat)
    (ctx : CancellationContext) (x y z : Binary64) (rng : RngState)
    (hc : ctx.choose_seed = true) (hr : rng.choose_seed = true) :
    cancell64 H e1 ctx x y z rng = cancell64 H e2 ctx x y z rng ∧
    (cancell64 H e1 ctx x y z rng).2.1.choose_seed = true := by
  have hr1 : (init_rng_state_struct rng ctx.choose_seed ctx.seed false).choose_seed
      = true := init_rng_choose_seed rng ctx.choose_seed ctx.seed false hr hc
  by_cases hcond : ctx.tolerance ≤ max (GET_EXP_FLT64 x) (GET_EXP_FLT64 y) - GET_EXP_FLT64 z
  · constructor
    · simp only [cancell64, if_pos hcond, _noise_binary64]
      rw [get_rand_entropy_indep H e1 e2 _ hr1]
    · simp only [cancell64, if_pos hcond, _noise_binary64]
      rw [get_rand_choose_seed]
      exact hr1
  · simp [cancell64, if_neg hcond, hr]

theorem cancell32_entropy_indep (H : Host) (e1 e2 : Nat)
    (ctx : CancellationContext) (x y z : Binary32) (rng : RngState)
    (hc : ctx.choose_seed = true) (hr : rng.choose_seed = true) :
    cancell32 H e1 ctx x y z rng = cancell32 H e2 ctx x y z rng ∧
    (cancell32 H e1 ctx x y z rng).2.1.choose_seed = true := by
  have hr1 : (init_rng_state_struct rng ctx.choose_seed ctx.seed false).choose_seed
      = true := init_rng_choose_seed rng ctx.choose_seed ctx.seed false hr hc
  by_cases hcond : ctx.tolerance ≤ max (GET_EXP_FLT32 x) (GET_EXP_FLT32 y) - GET_EXP_FLT32 z
  · constructor
    · simp only [cancell32, if_pos hcond, _noise_binary64]
      rw [get_rand_entropy_indep H e1 e2 _ hr1]
    · simp only [cancell32, if_pos hcond, _noise_binary64]
      rw [get_rand_choose_seed]
      exact hr1
  · simp [cancell32, if_neg hcond, hr]

theorem stepOp_entropy_indep (H : Host) (e1 e2 : Nat)
    (ctx : CancellationContext) (op : FpOp) (rng : RngState)
    (hc : ctx.choose_seed = true) (hr : rng.choose_seed = true) :
    stepOp H e1 ctx op rng = stepOp H e2 ctx op rng ∧
    (stepOp H e1 ctx op rng).2.choose_seed = true := by
  cases op with
  | add64 a b =>
    obtain ⟨h1, h2⟩ := cancell64_entropy_indep H e1 e2 ctx a b (H.fadd64 a b) rng hc hr
    exact ⟨by simp [stepOp, interflop_cancellation_add_double, h1],
      by simpa [stepOp, interflop_cancellation_add_double] using h2⟩
  | sub64 a b =>
    obtain ⟨h1, h2⟩ := cancell64_entropy_indep H e1 e2 ctx a b (H.fsub64 a b) rng hc hr
    exact ⟨by simp [stepOp, interflop_cancellation_sub_double, h1],
      by simpa [stepOp, interflop_cancellation_sub_double] using h2⟩
  | mul64 a b => exact ⟨rfl, hr⟩
  | div64 a b => exact ⟨rfl, hr⟩
  | fma64 a b c => exact ⟨rfl, hr⟩
  | add32 a b =>
    obtain ⟨h1, h2⟩ := cancell32_entropy_indep H e1 e2 ctx a b (H.fadd32 a b) rng hc hr
    exact ⟨by simp [stepOp, interflop_cancellation_add_float, h1],
      by simpa [stepOp, interflop_cancellation_add_float] using h2⟩
  | sub32 a b =>
    obtain ⟨h1, h2⟩ := cancell32_entropy_indep H e1 e2 ctx a b (H.fsub32 a b) rng hc hr
    exact ⟨by simp [stepOp, interflop_cancellation_sub_float, h1],
      by simpa [stepOp, interflop_cancellation_sub_float] using h2⟩
  | mul32 a b => exact ⟨rfl, hr⟩
  | div32 a b => exact ⟨rfl, hr⟩
  | fma32 a b c => exact ⟨rfl, hr⟩

theorem runOps_entropy_indep (H : Host) (e1 e2 : Nat)
    (ctx : CancellationContext) (ops : List FpOp)
    (hc : ctx.choose_seed = true) :
    ∀ rng : RngState, rng.choose_seed = true →
      runOps H e1 ctx ops rng = runOps H e2 ctx ops rng := by
  induction ops with
  | nil => intro rng _; rfl
  | cons op ops ih =>
    intro rng hr
    obtain ⟨heq, hcs⟩ := stepOp_entropy_indep H e1 e2 ctx op rng hc hr
    have hcs2 : (stepOp H e2 ctx op rng).2.choose_seed = true := heq ▸ hcs
    simp only [runOps, heq, ih (stepOp H e2 ctx op rng).2 hcs2]

/-- C7: with choose_seed set and a fixed seed, a complete single-threaded
run is independent of the entropy source — two runs over the same
operation sequence produce bit-identical results and final stream
states. -/
theorem C7_fixed_seed_determinism (H : Host) (e1 e2 : Nat)
    (ctx : CancellationContext) (ops : List FpOp)
    (h : ctx.choose_seed = true) :
    runOps H e1 ctx ops (interflop_cancellation_init_rng ctx)
      = runOps H e2 ctx ops (interflop_cancellation_init_rng ctx) := by
  apply runOps_entropy_indep H e1 e2 ctx ops h
  simp [interflop_cancellation_init_rng, init_rng_state_struct, rngStateZero, h]

/-- C7 witness: a concrete deterministic run, evaluated at two different
entropy values. -/
theorem C7_fixed_seed_determinism_witness :
    runOps HW 0 { seed := 42, tolerance := 1, choose_seed := true, warning := false }
      [FpOp.sub64 one64 one64, FpOp.mul64 one64 one64]
      (interflop_cancellation_init_rng
        { seed := 42, tolerance := 1, choose_seed := true, warning := false })
      = runOps HW 1 { seed := 42, tolerance := 1, choose_seed := true, warning := false }
      [FpOp.sub64 one64 one64, FpOp.mul64 one64 one64]
      (interflop_cancellation_init_rng
        { seed := 42, tolerance := 1, choose_seed := true, warning := false }) :=
  C7_fixed_seed_determinism HW 0 1
    { seed := 42, tolerance := 1, choose_seed := true, warning := false }
    [FpOp.sub64 one64 one64, FpOp.mul64 one64 one64] rfl

theorem val_scale (d : Binary64) (e : Int) (hd0 : d.exponent ≠ 0)
    (hlo : 0 < (d.exponent : Int) + e) (hhi : (d.exponent : Int) + e < 2047) :
    (Binary64.mk d.sign (((d.exponent : Int) + e) % 2048).toNat d.mantissa).val
      = d.val * (2 : ℚ) ^ e := by
  have hmod : ((d.exponent : Int) + e) % 2048 = (d.exponent : Int) + e :=
    Int.emod_eq_of_lt hlo.le (by omega)
  have htn : ((((d.exponent : Int) + e).toNat : ℕ) : Int) = (d.exponent : Int) + e :=
    Int.toNat_of_nonneg hlo.le
  have ht0 : (((d.exponent : Int) + e).toNat) ≠ 0 := by omega
  have hpow : (2 : ℚ) ^ (((d.exponent : Int) + e).toNat)
      = (2 : ℚ) ^ d.exponent * (2 : ℚ) ^ e := by
    have h1 : ((2 : ℚ) ^ (((d.exponent : Int) + e).toNat))
        = (2 : ℚ) ^ ((((d.exponent : Int) + e).toNat : ℕ) : ℤ) :=
      (zpow_natCast (2 : ℚ) _).symm
    rw [h1, htn, zpow_add₀ (two_ne_zero), zpow_natCast]
  simp only [Binary64.val, hmod]
  rw [if_neg ht0, if_neg hd0, hpow]
  ring

/-- C2 (amended): when an add/sub call detects a cancellation c at or
above the tolerance, the injected perturbation is the freshly drawn,
centered value u − 0.5 with e_n = e_z − (c − 1) added directly to its
IEEE-754 exponent field (no multiplication); provided the centering is
exact and nonzero and the shifted exponent field stays inside the normal
range (0, 2047), that value equals (u − 0.5) · 2^(e_n).  Outside that
range the field addition wraps modulo 2048 and the injected value is
mis-scaled. -/
theorem C2_noise_scaling (H : Host) (e : Nat) (ctx : CancellationContext)
    (x y z : Binary64) (p q w : Binary32) (rng : RngState) (u d : Binary64)
    (hu : u = (get_rand_double01 H e
      (init_rng_state_struct rng ctx.choose_seed ctx.seed false)).1)
    (hd : d = H.fsub64 u half64)
    (hd0 : d.exponent ≠ 0)
    (hcenter : d.val = u.val - 1 / 2) :
    (∀ c64 en64 : Int,
      c64 = max (GET_EXP_FLT64 x) (GET_EXP_FLT64 y) - GET_EXP_FLT64 z →
      en64 = GET_EXP_FLT64 z - (c64 - 1) →
      ctx.tolerance ≤ c64 →
      0 < (d.exponent : Int) + en64 →
      (d.exponent : Int) + en64 < 2047 →
      cancell64 H e ctx x y z rng
        = (H.fadd64 z
            (Binary64.mk d.sign (((d.exponent : Int) + en64) % 2048).toNat
              d.mantissa),
           (get_rand_double01 H e
             (init_rng_state_struct rng ctx.choose_seed ctx.seed false)).2,
           some (Binary64.mk d.sign (((d.exponent : Int) + en64) % 2048).toNat
              d.mantissa)) ∧
      ((((d.exponent : Int) + en64) % 2048).toNat : Int)
        = (d.exponent : Int) + en64 ∧
      (Binary64.mk d.sign (((d.exponent : Int) + en64) % 2048).toNat
          d.mantissa).val
        = (u.val - 1 / 2) * (2 : ℚ) ^ en64) ∧
    (∀ c32 en32 : Int,
      c32 = max (GET_EXP_FLT32 p) (GET_EXP_FLT32 q) - GET_EXP_FLT32 w →
      en32 = GET_EXP_FLT32 w - (c32 - 1) →
      ctx.tolerance ≤ c32 →
      0 < (d.exponent : Int) + en32 →
      (d.exponent : Int) + en32 < 2047 →
      cancell32 H e ctx p q w rng
        = (H.faddFlt64 w
            (Binary64.mk d.sign (((d.exponent : Int) + en32) % 2048).toNat
              d.mantissa),
           (get_rand_double01 H e
             (init_rng_state_struct rng ctx.choose_seed ctx.seed false)).2,
           some (Binary64.mk d.sign (((d.exponent : Int) + en32) % 2048).toNat
              d.mantissa)) ∧
      ((((d.exponent : Int) + en32) % 2048).toNat : Int)
        = (d.exponent : Int) + en32 ∧
      (Binary64.mk d.sign (((d.exponent : Int) + en32) % 2048).toNat
          d.mantissa).val
        = (u.val - 1 / 2) * (2 : ℚ) ^ en32) := by
  subst hd
  subst hu
  constructor
  · intro c64 en64 hc hen htol hlo hhi
    subst hc
    subst hen
    refine ⟨?_, by omega, ?_⟩
    · simp only [cancell64, if_pos htol, _noise_binary64]
    · rw [val_scale _ _ hd0 hlo hhi, hcenter]
  · intro c32 en32 hc hen htol hlo hhi
    subst hc
    subst hen
    refine ⟨?_, by omega, ?_⟩
    · simp only [cancell32, if_pos htol, _noise_binary64]
    · rw [val_scale _ _ hd0 hlo hhi, hcenter]

/-- C2 witness: a concrete triggered cancellation (tolerance 0, operands
and result 1.0, so c = 0 and e_n = 1) at a draw of 0.75: the injected
noise is 0.25 with one added to its exponent field, i.e. 0.5 =
(0.75 − 0.5) · 2^1. -/
theorem C2_noise_scaling_witness :
    (cancell64 HW 0 { seed := 0, tolerance := 0, choose_seed := false, warning := false }
        one64 one64 one64 rngStateZero).2.2
      = some { sign := 0, exponent := 1022, mantissa := 0 } ∧
    ({ sign := 0, exponent := 1022, mantissa := 0 } : Binary64).val
      = (b075.val - 1 / 2) * (2 : ℚ) ^ (1 : Int) ∧
    (cancell32 HW 0 { seed := 0, tolerance := 0, choose_seed := false, warning := false }
        one32 one32 one32 rngStateZero).2.2
      = some { sign := 0, exponent := 1022, mantissa := 0 } := by
  have hmk : Binary64.mk b025.sign (((b025.exponent : Int) + 1) % 2048).toNat
      b025.mantissa = { sign := 0, exponent := 1022, mantissa := 0 } := by decide
  have h := C2_noise_scaling HW 0
    { seed := 0, tolerance := 0, choose_seed := false, warning := false }
    one64 one64 one64 one32 one32 one32 rngStateZero b075 b025
    (by decide) (by decide) (by decide)
    (by norm_num [Binary64.val, b025, b075])
  obtain ⟨h641, h642, h643⟩ := h.1 0 1 (by decide) (by decide) (by decide)
    (by decide) (by decide)
  obtain ⟨h321, h322, h323⟩ := h.2 0 1 (by decide) (by decide) (by decide)
    (by decide) (by decide)
  rw [hmk] at h641 h643 h321
  exact ⟨by rw [h641], h643, by rw [h321]⟩

/-- C2 counterexample: sub(1.0, 1.0) under the default context (tolerance
1).  The IEEE difference is +0.0, so e_z = −1023, the detected
cancellation is 1023 and e_n = −2045.  The call draws u = 0.75 and the
claim prescribes a perturbation of (0.75 − 0.5) · 2^(−2045); but adding
−2045 to the exponent field 1021 of the centered value 0.25 wraps the
11-bit field to 1024, so the noise actually injected is 2.0. -/
theorem C2_cex :
    (interflop_cancellation_sub_double HCex 0 init_context one64 one64
        (interflop_cancellation_init_rng init_context)).2.2
      = some { sign := 0, exponent := 1024, mantissa := 0 } ∧
    GET_EXP_FLT64 (HCex.fsub64 one64 one64)
      - (max (GET_EXP_FLT64 one64) (GET_EXP_FLT64 one64)
          - GET_EXP_FLT64 (HCex.fsub64 one64 one64) - 1) = -2045 ∧
    (get_rand_double01 HCex 0 (init_rng_state_struct
        (interflop_cancellation_init_rng init_context) init_context.choose_seed
        init_context.seed false)).1 = b075 ∧
    b075.val = 3 / 4 ∧
    ({ sign := 0, exponent := 1024, mantissa := 0 } : Binary64).val = 2 ∧
    (b075.val - 1 / 2) * (2 : ℚ) ^ (-2045 : Int)
      ≠ ({ sign := 0, exponent := 1024, mantissa := 0 } : Binary64).val := by
  refine ⟨by decide, by decide, by decide, by norm_num [Binary64.val, b075],
    by norm_num [Binary64.val], ?_⟩
  have hval : ({ sign := 0, exponent := 1024, mantissa := 0 } : Binary64).val = 2 := by
    norm_num [Binary64.val]
  have hu : b075.val = 3 / 4 := by norm_num [Binary64.val, b075]
  rw [hval, hu]
  have h1 : (2 : ℚ) ^ (-2045 : Int) < 1 :=
    zpow_lt_one_of_neg₀ (by norm_num) (by norm_num)
  have h2 : (0 : ℚ) < (2 : ℚ) ^ (-2045 : Int) := zpow_pos (by norm_num) _
  intro hEq
  nlinarith [h1, h2]
